import Mathlib

/-!
Verification development for the SIAUGESMAT batch transformation-and-replay
pipeline.  The definitions below are a shallow embedding of the Python
sources:

* `app/services/data_processor.py` — field cleaner, naming-rule engine and
  operation classifier (`DataProcessor`);
* `app/services/moodle_sync.py` — the remote LMS web-service client
  (`MoodleClient`), modelled over an abstract send oracle;
* `app/services/tasks.py` — the batch executor (`process_moodle_batch`)
  and the role mapper.

Cell values flowing through the worker are strings, integers, or missing
(pandas `NaN`/`None`); they are modelled by `CellVal`.  Python string and
number primitives (`str`, `int`, truthiness, `strip`, `upper`, `zfill`,
substring test) are embedded as structurally recursive functions over the
character list of a `String`, so every definition evaluates inside the
kernel on concrete inputs. -/

/-! ## Python string primitives -/

/-- Characters removed by Python `str.strip()` (the whitespace present in
the data this pipeline handles). -/
def pyWs (c : Char) : Bool :=
  c = ' ' || c = '\t' || c = '\n' || c = '\r'

/-- Python `s.strip()`: removes leading and trailing whitespace. -/
def pyStrip (s : String) : String :=
  String.mk (((s.data.dropWhile pyWs).reverse.dropWhile pyWs).reverse)

/-- Python `s.upper()` (ASCII range, which is what the Moodle identifiers
use). -/
def pyUpper (s : String) : String :=
  String.mk (s.data.map Char.toUpper)

/-- Python `s.lower()` (ASCII range). -/
def pyLower (s : String) : String :=
  String.mk (s.data.map Char.toLower)

/-- First `n` characters of a string, `s[:n]`. -/
def strTake (s : String) (n : Nat) : String :=
  String.mk (s.data.take n)

/-- String with its first `n` characters removed. -/
def strDrop (s : String) (n : Nat) : String :=
  String.mk (s.data.drop n)

/-- Number of characters, Python `len(s)`. -/
def strLen (s : String) : Nat :=
  s.data.length

/-- Test that `pat` occurs as a contiguous run inside `cs`. -/
def subListOf (pat : List Char) : List Char → Bool
  | [] => pat.isEmpty
  | c :: rest => pat.isPrefixOf (c :: rest) || subListOf pat rest

/-- Python `pat in s` (substring containment). -/
def strContains (s pat : String) : Bool :=
  subListOf pat.data s.data

/-- Python `s.startswith(pat)`. -/
def strStartsWith (s pat : String) : Bool :=
  pat.data.isPrefixOf s.data

/-- Characters split on a separator character, Python `s.split(sep)` for a
one-character separator. -/
def splitOnChar (sep : Char) : List Char → List (List Char)
  | [] => [[]]
  | c :: rest =>
    match splitOnChar sep rest with
    | [] => [[c]]
    | g :: gs => if c = sep then [] :: g :: gs else (c :: g) :: gs

/-! ## Cell values and rows -/

/-- Cell value of a spreadsheet/CSV row as seen by the worker: a string, an
integer, or a missing value (pandas `NaN` converted to `None`). -/
inductive CellVal where
  | vStr (s : String)
  | vInt (n : Int)
  | vNone
deriving DecidableEq

/-- Row of a table: an association list from column name to cell value,
modelling a Python dict with unique keys (`row.to_dict()`). -/
abbrev Row := List (String × CellVal)

/-- Dict lookup `d.get(k)`: first binding of the key, if any. -/
def Row.get (r : Row) (k : String) : Option CellVal :=
  match r with
  | [] => none
  | (k', v) :: rest => if k' = k then some v else Row.get rest k

/-- Dict assignment `d[k] = v`: replaces the first binding of the key, or
appends a new binding when the key is absent. -/
def Row.set (r : Row) (k : String) (v : CellVal) : Row :=
  match r with
  | [] => [(k, v)]
  | (k', v') :: rest => if k' = k then (k, v) :: rest else (k', v') :: Row.set rest k v

/-- Python `str(x)` on a cell value (`str(None) = "None"`). -/
def pyStr : CellVal → String
  | .vStr s => s
  | .vInt n => toString n
  | .vNone => "None"

/-- Python truthiness of a cell value: `None`, `""` and `0` are falsy. -/
def pyTruthy : CellVal → Bool
  | .vStr s => s ≠ ""
  | .vInt n => n ≠ 0
  | .vNone => false

/-- Truthiness of an optional cell (`d.get(k)` missing ↦ `None` ↦ falsy). -/
def optTruthy : Option CellVal → Bool
  | none => false
  | some v => pyTruthy v

/-- Missing optional cell rendered as Python `None`. -/
def cellOpt : Option CellVal → CellVal
  | none => .vNone
  | some v => v

/-- Value of the decimal digit string (empty string ↦ 0). -/
def natOfDigits (s : String) : Nat :=
  s.data.foldl (fun acc c => acc * 10 + (c.toNat - 48)) 0

/-- Python `int(s)` on a string: optional surrounding whitespace, optional
sign, then a nonempty run of decimal digits; anything else raises
`ValueError` (modelled as `none`).  Digit-group underscores are out of the
modelled scope. -/
def parsePyInt (s : String) : Option Int :=
  let t := pyStrip s
  let (sgn, digits) :=
    if strStartsWith t "-" then ((-1 : Int), strDrop t 1)
    else if strStartsWith t "+" then ((1 : Int), strDrop t 1)
    else ((1 : Int), t)
  if strLen digits > 0 && digits.data.all Char.isDigit then
    some (sgn * (natOfDigits digits : Int))
  else none

/-- Python `int(x)` on a cell value: identity on integers, strict decimal
parse on strings, `TypeError` on `None` (all failures modelled as `none`). -/
def pyIntOfCell : CellVal → Option Int
  | .vInt n => some n
  | .vStr s => parsePyInt s
  | .vNone => none

/-- Python `int(float(s))`: decimal number with an optional sign and an
optional fractional part, truncated toward zero; parse failure (raising
`ValueError`) is `none`.  Exponent/`inf`/`nan` forms are out of the
modelled scope. -/
def parsePyFloatTrunc (s : String) : Option Int :=
  let t := pyStrip s
  let (sgn, rest) :=
    if strStartsWith t "-" then ((-1 : Int), strDrop t 1)
    else if strStartsWith t "+" then ((1 : Int), strDrop t 1)
    else ((1 : Int), t)
  match splitOnChar '.' rest.data with
  | [ip] =>
      if ip.length > 0 && ip.all Char.isDigit then
        some (sgn * (natOfDigits (String.mk ip) : Int))
      else none
  | [ip, fp] =>
      if ip.all Char.isDigit && fp.all Char.isDigit && ip.length + fp.length > 0 then
        some (sgn * (natOfDigits (String.mk ip) : Int))
      else none
  | _ => none

/-- Python `s.zfill(width)`: left-pads with zeros up to `width`, keeping a
leading sign in front of the padding. -/
def pyZfill (s : String) (width : Nat) : String :=
  if width ≤ strLen s then s
  else
    let (sgn, rest) :=
      if strStartsWith s "-" || strStartsWith s "+" then (strTake s 1, strDrop s 1)
      else ("", s)
    sgn ++ String.mk (List.replicate (width - strLen s) '0') ++ rest

/-! ## Naming-rule engine (`DataProcessor`, app/services/data_processor.py) -/

/-- Embedding of `DataProcessor._get_cat_prefix`: uppercase and strip the
category name; if it contains `"APARTADO"` return the fixed code `"URA"`,
otherwise the first three characters after removing every non-`A`–`Z`
character (the `re.sub` of `[^A-Z]`). -/
def get_cat_pref (cat_name : String) : String :=
  let name := pyStrip (pyUpper cat_name)
  if strContains name "APARTADO" then "URA"
  else
    let clean_name := String.mk (name.data.filter (fun c => 'A' ≤ c && c ≤ 'Z'))
    strTake clean_name 3

/-- Embedding of `DataProcessor._format_program_code`: `int(float(code))`
zero-padded to two digits, falling back to zero-padding the raw string when
the parse raises. -/
def format_program_code (code : String) : String :=
  match parsePyFloatTrunc code with
  | some n => pyZfill (toString n) 2
  | none => pyZfill code 2

/-- Raw academic fields of one course-creation row, after the pipeline's
general text cleaning (every cell already a string). -/
structure AcademicRow where
  nombre_cat : String
  cod_programa : String
  cod_curso : String
  semestre : String
  grupo : String
  nombre_curso : String

/-- Derived LMS fields produced by the transformation engine. -/
structure MoodleFields where
  shortname : String
  fullname : String
  category_idnumber : String
  format : String
  templatecourse : String
deriving DecidableEq

/-- Embedding of the row-level body of
`DataProcessor._construct_moodle_fields` (the five `df.apply` formulas run
when the raw academic column set is present). -/
def construct_moodle_fields (r : AcademicRow) : MoodleFields :=
  { shortname :=
      get_cat_pref r.nombre_cat ++ format_program_code r.cod_programa ++
      pyStrip r.cod_curso ++ "_s" ++ pyStrip r.semestre ++ pyStrip r.grupo
    fullname := pyStrip r.nombre_curso ++ " - Grupo " ++ pyStrip r.grupo
    category_idnumber :=
      get_cat_pref r.nombre_cat ++ "_" ++ format_program_code r.cod_programa ++
      "_s" ++ pyStrip r.semestre
    format := "onetopic"
    templatecourse :=
      "PORTAFOLIO" ++ format_program_code r.cod_programa ++ "_" ++
      pyStrip r.cod_curso ++ "s" ++ pyStrip r.semestre }

/-! ## Operation classifier (`DataProcessor._detect_operation`) -/

/-- Closed enumeration of the bulk operations. -/
inductive OperationKind where
  | CREATE_COURSE
  | ENROLL_USER
  | CREATE_USER
  | DELETE_COURSE
  | DELETE_USER
  | UPDATE_VISIBILITY
deriving DecidableEq

/-- Embedding of `DataProcessor._detect_operation`: first-match-wins chain
of `issubset` tests over the set of normalized column names.  The source
returns a pair whose second component is always `None`; only the operation
is modelled. -/
def detect_operation (columns : List String) : Option OperationKind :=
  if "shortname" ∈ columns ∧ "fullname" ∈ columns then some .CREATE_COURSE
  else if "username" ∈ columns ∧ "shortname" ∈ columns then some .ENROLL_USER
  else if "username" ∈ columns ∧ "firstname" ∈ columns ∧ "lastname" ∈ columns ∧
          "email" ∈ columns ∧ "password" ∈ columns then some .CREATE_USER
  else if "shortname" ∈ columns ∧ "delete" ∈ columns then some .DELETE_COURSE
  else if "username" ∈ columns ∧ "delete" ∈ columns then some .DELETE_USER
  else if "shortname" ∈ columns ∧ "visible" ∈ columns then some .UPDATE_VISIBILITY
  else none

/-- Required-column subset of each classifier rule. -/
def requiredCols : OperationKind → List String
  | .CREATE_COURSE => ["shortname", "fullname"]
  | .ENROLL_USER => ["username", "shortname"]
  | .CREATE_USER => ["username", "firstname", "lastname", "email", "password"]
  | .DELETE_COURSE => ["shortname", "delete"]
  | .DELETE_USER => ["username", "delete"]
  | .UPDATE_VISIBILITY => ["shortname", "visible"]

/-- Position of each rule in the classifier's fixed priority order. -/
def priorityIdx : OperationKind → Nat
  | .CREATE_COURSE => 0
  | .ENROLL_USER => 1
  | .CREATE_USER => 2
  | .DELETE_COURSE => 3
  | .DELETE_USER => 4
  | .UPDATE_VISIBILITY => 5

/-! ## Remote protocol values (parsed JSON bodies) -/

mutual
/-- Parsed JSON value of a remote response body. -/
inductive WSVal where
  | null
  | b (t : Bool)
  | i (n : Int)
  | s (v : String)
  | arr (xs : WSList)
  | obj (fs : WSFields)

/-- List of JSON values. -/
inductive WSList where
  | nil
  | cons (hd : WSVal) (tl : WSList)

/-- Fields of a JSON object. -/
inductive WSFields where
  | nil
  | cons (k : String) (v : WSVal) (tl : WSFields)
end

/-- Dict lookup `d.get(k)` on a JSON object. -/
def lookupWS (fs : WSFields) (k : String) : Option WSVal :=
  match fs with
  | .nil => none
  | .cons k' v rest => if k' = k then some v else lookupWS rest k

/-- Emptiness of a JSON list. -/
def wsListIsEmpty : WSList → Bool
  | .nil => true
  | .cons _ _ => false

/-- Emptiness of a JSON object. -/
def wsFieldsIsEmpty : WSFields → Bool
  | .nil => true
  | .cons _ _ _ => false

/-- Length of a JSON list. -/
def wsListLen : WSList → Nat
  | .nil => 0
  | .cons _ tl => wsListLen tl + 1

/-- Python truthiness of a JSON value. -/
def wsTruthy : WSVal → Bool
  | .null => false
  | .b t => t
  | .i n => n ≠ 0
  | .s v => v ≠ ""
  | .arr xs => !wsListIsEmpty xs
  | .obj fs => !wsFieldsIsEmpty fs

mutual
/-- Python `repr` of a parsed JSON value (the form `str` uses inside
containers). -/
def wsRepr : WSVal → String
  | .null => "None"
  | .b true => "True"
  | .b false => "False"
  | .i n => toString n
  | .s v => "'" ++ v ++ "'"
  | .arr xs => "[" ++ wsReprList xs ++ "]"
  | .obj fs => "\x7b" ++ wsReprFields fs ++ "\x7d"

/-- Comma-joined reprs of a JSON list's elements. -/
def wsReprList : WSList → String
  | .nil => ""
  | .cons x .nil => wsRepr x
  | .cons x (.cons y tl) => wsRepr x ++ ", " ++ wsReprList (.cons y tl)

/-- Comma-joined reprs of a JSON object's fields. -/
def wsReprFields : WSFields → String
  | .nil => ""
  | .cons k v .nil => "'" ++ k ++ "': " ++ wsRepr v
  | .cons k v (.cons k2 v2 tl) =>
      "'" ++ k ++ "': " ++ wsRepr v ++ ", " ++ wsReprFields (.cons k2 v2 tl)
end

/-- Python `str` of a parsed JSON value (top-level strings are shown bare). -/
def pyShowWS : WSVal → String
  | .s v => v
  | v => wsRepr v

/-- Python `str` of an optional JSON value (`None` for a missing one). -/
def pyShowOptWS : Option WSVal → String
  | none => "None"
  | some v => pyShowWS v

/-- Python `str` of an optional string (`None` for a missing one). -/
def pyShowOptStr : Option String → String
  | none => "None"
  | some s => s

/-- Association-list lookup with string keys (Python `dict.get`). -/
def assocLookup (l : List (String × α)) (k : String) : Option α :=
  match l with
  | [] => none
  | (k', v) :: rest => if k' = k then some v else assocLookup rest k

/-! ## Remote client (`MoodleClient`, app/services/moodle_sync.py)

The client is modelled over an abstract send oracle standing for
`_send_request`: given the web-service function name and its parameter set
it returns the dict `_send_request` would return.  Every client operation
also returns the list of remote calls it issued, so that claims about the
remote system never being contacted are statements about that list.
Payload shapes the Python code would crash on (`KeyError`, `TypeError`,
`AttributeError` while picking a response apart) are modelled as
`Except.error`; those exceptions propagate to the worker's row loop. -/

/-- Result dict of `_send_request` and of the client operations:
`success`, and optionally `data`, `error` and `code` keys. -/
structure MResult where
  success : Bool
  data : Option WSVal := none
  error : Option String := none
  code : Option String := none

/-- Parameter of a web-service call (payload key and value). -/
abbrev Param := String × CellVal

/-- One remote call: web-service function name and parameters. -/
abbrev Call := String × List Param

/-- Send oracle: the behaviour of `_send_request` (transport, token and
response decoding abstracted) for each function name and parameter set. -/
abbrev Send := String → List Param → MResult

/-- Embedding of `MoodleClient.get_user_id_by_username`. -/
def get_user_id_by_username (send : Send) (username : CellVal) :
    List Call × Except String (Option Int) :=
  let ps : List Param := [("field", .vStr "username"), ("values[0]", username)]
  let r := send "core_user_get_users_by_field" ps
  let cs : List Call := [("core_user_get_users_by_field", ps)]
  if r.success && wsTruthy (r.data.getD .null) then
    match r.data.getD .null with
    | .arr (.cons x _) =>
        match x with
        | .obj fs =>
            match lookupWS fs "id" with
            | some (.i n) => (cs, .ok (some n))
            | some _ => (cs, .error "id field is not an integer")
            | none => (cs, .error "KeyError: id")
        | _ => (cs, .error "TypeError: element is not a dict")
    | _ => (cs, .error "TypeError: payload is not a list")
  else (cs, .ok none)

/-- Embedding of `MoodleClient.create_user`: local password-length check
before any remote call, then `core_user_create_users` with rewriting of two
known remote error messages. -/
def create_user (send : Send) (user_data : Row) : List Call × MResult :=
  let password := pyStr ((Row.get user_data "password").getD (.vStr ""))
  if strLen password < 8 then
    ([], { success := false, error := some "Contraseña insegura: Mínimo 8 caracteres requeridos." })
  else
    let ps : List Param :=
      [("users[0][username]", cellOpt (Row.get user_data "username")),
       ("users[0][password]", .vStr password),
       ("users[0][firstname]", cellOpt (Row.get user_data "firstname")),
       ("users[0][lastname]", cellOpt (Row.get user_data "lastname")),
       ("users[0][email]", cellOpt (Row.get user_data "email")),
       ("users[0][auth]", .vStr "manual"),
       ("users[0][lang]", .vStr "es")] ++
      (match Row.get user_data "idnumber" with
       | some v => [("users[0][idnumber]", v)]
       | none => [])
    let r := send "core_user_create_users" ps
    let cs : List Call := [("core_user_create_users", ps)]
    if !r.success then
      let err := pyLower (r.error.getD "")
      if strContains err "password" && strContains err "policy" then
        (cs, { success := false,
               error := some "La contraseña no cumple la política de seguridad (Mayús, Minús, Núm, Caracter esp)." })
      else if strContains err "username" && strContains err "already exists" then
        (cs, { success := false, error := some "El usuario ya existe." })
      else (cs, r)
    else (cs, r)

/-- Embedding of `MoodleClient.delete_user`: resolve the numeric user id by
username, then `core_user_delete_users`. -/
def delete_user (send : Send) (username : CellVal) : List Call × Except String MResult :=
  match get_user_id_by_username send username with
  | (cs, .error e) => (cs, .error e)
  | (cs, .ok uid) =>
    if uid = none ∨ uid = some 0 then
      (cs, .ok { success := false,
                 error := some ("Usuario '" ++ pyStr username ++ "' no encontrado, no se puede eliminar.") })
    else
      let ps : List Param := [("userids[0]", .vInt (uid.getD 0))]
      let r := send "core_user_delete_users" ps
      let cs2 := cs ++ [("core_user_delete_users", ps)]
      match r.success, r.data with
      | true, some .null =>
          (cs2, .ok { success := true,
                      data := some (.s ("Usuario '" ++ pyStr username ++ "' eliminado correctamente.")) })
      | _, _ => (cs2, .ok r)

/-- Embedding of `MoodleClient.get_course_id_by_shortname`. -/
def get_course_id_by_shortname (send : Send) (shortname : CellVal) :
    List Call × Except String (Option Int) :=
  let ps : List Param := [("field", .vStr "shortname"), ("value", shortname)]
  let r := send "core_course_get_courses_by_field" ps
  let cs : List Call := [("core_course_get_courses_by_field", ps)]
  if r.success then
    match r.data.getD .null with
    | .obj fs =>
        match lookupWS fs "courses" with
        | some courses =>
            if wsTruthy courses then
              match courses with
              | .arr (.cons x _) =>
                  match x with
                  | .obj cf =>
                      match lookupWS cf "id" with
                      | some (.i n) => (cs, .ok (some n))
                      | some _ => (cs, .error "id field is not an integer")
                      | none => (cs, .error "KeyError: id")
                  | _ => (cs, .error "TypeError: element is not a dict")
              | _ => (cs, .error "TypeError: courses is not a list")
            else (cs, .ok none)
        | none => (cs, .ok none)
    | _ => (cs, .error "TypeError: payload is not a dict")
  else (cs, .ok none)

/-- Embedding of `MoodleClient.check_category_exists`: the category pre-check
used by course creation (`core_course_get_categories` must return a
nonempty list). -/
def check_category_exists (send : Send) (category_id : Int) : List Call × Bool :=
  let ps : List Param := [("criteria[0][key]", .vStr "id"), ("criteria[0][value]", .vInt category_id)]
  let r := send "core_course_get_categories" ps
  ([("core_course_get_categories", ps)],
   match r.success, r.data.getD .null with
   | true, .arr xs => wsListLen xs > 0
   | _, _ => false)

/-- Embedding of the category resolution at the top of
`MoodleClient.create_course`: `int(course_data.get("category_id") or
course_data.get("category") or 0)`, where a `ValueError` from `int` is
`none`. -/
def resolve_category_id (course_data : Row) : Option Int :=
  let catIdCell := Row.get course_data "category_id"
  let catRaw : Option CellVal :=
    if optTruthy catIdCell then catIdCell else Row.get course_data "category"
  let base : CellVal := if optTruthy catRaw then cellOpt catRaw else .vInt 0
  pyIntOfCell base

/-- Embedding of `MoodleClient.create_course`: resolve the numeric category,
verify it exists, then `core_course_create_courses`; a present
`category_idnumber` is forwarded only as the new course's `idnumber`
parameter. -/
def create_course (send : Send) (course_data : Row) : List Call × MResult :=
  match resolve_category_id course_data with
  | none => ([], { success := false, error := some "El ID de categoría debe ser un número entero." })
  | some category_id =>
    let (cs1, ok) := check_category_exists send category_id
    if !ok then
      (cs1, { success := false, error := some s!"La categoría ID {category_id} no existe." })
    else
      let ps : List Param :=
        [("courses[0][fullname]", cellOpt (Row.get course_data "fullname")),
         ("courses[0][shortname]", cellOpt (Row.get course_data "shortname")),
         ("courses[0][categoryid]", .vInt category_id),
         ("courses[0][visible]", .vInt 1),
         ("courses[0][format]", (Row.get course_data "format").getD (.vStr "topics"))] ++
        (match Row.get course_data "category_idnumber" with
         | some v => [("courses[0][idnumber]", v)]
         | none => [])
      (cs1 ++ [("core_course_create_courses", ps)], send "core_course_create_courses" ps)

/-- Embedding of `MoodleClient.update_course_visibility`. -/
def update_course_visibility (send : Send) (shortname : CellVal) (visible : Int) :
    List Call × Except String MResult :=
  match get_course_id_by_shortname send shortname with
  | (cs, .error e) => (cs, .error e)
  | (cs, .ok cid) =>
    if cid = none ∨ cid = some 0 then
      (cs, .ok { success := false, error := some ("Curso '" ++ pyStr shortname ++ "' no encontrado.") })
    else
      let ps : List Param :=
        [("courses[0][id]", .vInt (cid.getD 0)), ("courses[0][visible]", .vInt visible)]
      let r := send "core_course_update_courses" ps
      let cs2 := cs ++ [("core_course_update_courses", ps)]
      if r.success then
        (cs2, .ok { success := true,
                    data := some (.s s!"Visibilidad del curso actualizada a {visible}.") })
      else (cs2, .ok r)

/-- Embedding of `MoodleClient.delete_course`: resolve the course id, call
`core_course_delete_courses`, and downgrade a remote warning to a failure. -/
def delete_course (send : Send) (shortname : CellVal) : List Call × Except String MResult :=
  match get_course_id_by_shortname send shortname with
  | (cs, .error e) => (cs, .error e)
  | (cs, .ok cid) =>
    if cid = none ∨ cid = some 0 then
      (cs, .ok { success := false,
                 error := some ("Curso '" ++ pyStr shortname ++ "' no encontrado, no se puede eliminar.") })
    else
      let ps : List Param := [("courseids[0]", .vInt (cid.getD 0))]
      let r := send "core_course_delete_courses" ps
      let cs2 := cs ++ [("core_course_delete_courses", ps)]
      if r.success then
        match r.data.getD (.obj .nil) with
        | .obj fs =>
          let warnings := (lookupWS fs "warnings").getD (.arr .nil)
          if wsTruthy warnings then
            match warnings with
            | .arr (.cons w _) =>
              match w with
              | .obj wf =>
                  (cs2, .ok { success := false,
                              error := some ("Advertencia Moodle: " ++ pyShowOptWS (lookupWS wf "message")) })
              | _ => (cs2, .error "AttributeError: warning entry has no get")
            | _ => (cs2, .error "TypeError: warnings value is not a list")
          else
            (cs2, .ok { success := true,
                        data := some (.s ("Curso '" ++ pyStr shortname ++ "' eliminado correctamente.")) })
        | _ => (cs2, .error "AttributeError: payload has no get")
      else (cs2, .ok r)

/-- Role-name-to-id dict of `MoodleClient.enroll_user`. -/
def roleIdMap : List (String × Int) :=
  [("manager", 1), ("coursecreator", 2), ("editingteacher", 3),
   ("teacher", 4), ("student", 5), ("guest", 6)]

/-- Embedding of `MoodleClient.enroll_user`: map the role to its numeric id
(digit strings used directly, names via `roleIdMap` with default 5), resolve
user and course by natural key, then `enrol_manual_enrol_users`. -/
def enroll_user (send : Send) (enrollment_data : Row) : List Call × Except String MResult :=
  let username := Row.get enrollment_data "username"
  let shortname := Row.get enrollment_data "shortname"
  let role_input := (Row.get enrollment_data "role").getD (.vStr "student")
  let roleStr := pyStr role_input
  let role_id : Int :=
    if strLen roleStr > 0 && roleStr.data.all Char.isDigit then
      (pyIntOfCell role_input).getD 0
    else
      (assocLookup roleIdMap (pyLower roleStr)).getD 5
  match get_user_id_by_username send (cellOpt username) with
  | (cs, .error e) => (cs, .error e)
  | (cs, .ok uid) =>
    if uid = none ∨ uid = some 0 then
      (cs, .ok { success := false,
                 error := some ("Usuario '" ++ pyStr (cellOpt username) ++ "' no encontrado.") })
    else
      match get_course_id_by_shortname send (cellOpt shortname) with
      | (cs2, .error e) => (cs ++ cs2, .error e)
      | (cs2, .ok cid) =>
        if cid = none ∨ cid = some 0 then
          (cs ++ cs2, .ok { success := false,
                            error := some ("Curso '" ++ pyStr (cellOpt shortname) ++ "' no encontrado.") })
        else
          let ps : List Param :=
            [("enrolments[0][roleid]", .vInt role_id),
             ("enrolments[0][userid]", .vInt (uid.getD 0)),
             ("enrolments[0][courseid]", .vInt (cid.getD 0))]
          let r := send "enrol_manual_enrol_users" ps
          let cs3 := cs ++ cs2 ++ [("enrol_manual_enrol_users", ps)]
          match r.success, r.data with
          | true, some .null => (cs3, .ok { success := true, data := some (.s "Matriculado correctamente") })
          | _, _ => (cs3, .ok r)

/-! ## The transport layer of `_send_request` (for the double-layer error
signal) -/

/-- Outcome of the HTTP POST inside `_send_request`: a
`requests.RequestException` (connection failure, timeout, or a non-success
HTTP status raised by `raise_for_status`), some other exception (such as a
JSON decoding failure), or a success-status response with a parsed body. -/
inductive HttpOutcome where
  | requestError (msg : String)
  | otherError (msg : String)
  | okResponse (body : WSVal)

/-- Python `str` of a `d.get(k, default)` whose expected payload is a
string (non-string payloads are carried by their rendering). -/
def pyStrOfWSGet (fs : WSFields) (k : String) (dflt : String) : String :=
  match lookupWS fs k with
  | some (.s v) => v
  | some v => pyShowWS v
  | none => dflt

/-- Embedding of the response handling of `MoodleClient._send_request`: a
success-status body that is a dict carrying an `exception` or `debuginfo`
key is turned into a failure with the embedded message and error code;
exceptions map to the two failure branches. -/
def send_request_of (resp : HttpOutcome) : MResult :=
  match resp with
  | .requestError m => { success := false, error := some ("Error de conexión: " ++ m) }
  | .otherError m => { success := false, error := some ("Error interno: " ++ m) }
  | .okResponse body =>
    match body with
    | .obj fs =>
      if (lookupWS fs "exception").isSome || (lookupWS fs "debuginfo").isSome then
        { success := false,
          error := some (pyStrOfWSGet fs "message" "Error desconocido de Moodle"),
          code := some (pyStrOfWSGet fs "errorcode" "") }
      else { success := true, data := some body }
    | _ => { success := true, data := some body }

/-! ## Batch executor (`process_moodle_batch`, app/services/tasks.py)

The Celery task is modelled as a pure function of the send oracle, the
forced operation string and the list of decoded CSV rows.  The durable
store is abstracted away: the periodic flush (every 10 rows) and the final
write persist exactly the in-memory counters, so the final persisted values
are the ones returned here; a store fault (the `FAILED` path of the outer
handler) is an external failure outside this embedding. -/

/-- Excel-role-to-Moodle-shortname dict of `_map_role_to_technical_name`. -/
def roleTechMapping : List (String × String) :=
  [("profesor", "editingteacher"), ("docente", "editingteacher"),
   ("profesor con permiso", "editingteacher"), ("profesor sin permiso", "teacher"),
   ("estudiante", "student"), ("alumno", "student"),
   ("invitado", "guest"), ("gestor", "manager"),
   ("editingteacher", "editingteacher"), ("teacher", "teacher"),
   ("student", "student"), ("guest", "guest"),
   ("manager", "manager"), ("coursecreator", "coursecreator")]

/-- Embedding of `_map_role_to_technical_name` (app/services/tasks.py):
missing or blank roles fall to `"editingteacher"`, otherwise the
lowercased, stripped role is looked up in `roleTechMapping` with
`"editingteacher"` as the fallback. -/
def map_role_to_technical_name (role_input : CellVal) : String :=
  if role_input = .vNone ∨ pyStrip (pyStr role_input) = "" then "editingteacher"
  else
    (assocLookup roleTechMapping (pyStrip (pyLower (pyStr role_input)))).getD "editingteacher"

/-- Identifier recorded for a row, as assigned at the start of each branch
of the row loop (and `"Desconocido"` for an unknown operation). -/
def row_identifier (op : String) (row : Row) : String :=
  match op with
  | "CREATE_USER" => pyStr ((Row.get row "username").getD (.vStr "N/A"))
  | "ENROLL_USER" =>
      pyStr (cellOpt (Row.get row "username")) ++ " -> " ++ pyStr (cellOpt (Row.get row "shortname"))
  | "CREATE_COURSE" => pyStr ((Row.get row "shortname").getD (.vStr "N/A"))
  | "DELETE_COURSE" => pyStr ((Row.get row "shortname").getD (.vStr "N/A"))
  | "DELETE_USER" => pyStr ((Row.get row "username").getD (.vStr "N/A"))
  | "UPDATE_VISIBILITY" => pyStr ((Row.get row "shortname").getD (.vStr "N/A"))
  | _ => "Desconocido"

/-- Embedding of the `try` block of the row loop of `process_moodle_batch`:
dispatch on the forced operation and produce the row's result dict, the
remote calls issued, and — as `Except.error` — any exception the block
raises (an `int` conversion failure on a flag, or a client crash on a
malformed payload).  Exception detail strings abbreviate Python's
messages. -/
def process_row_body (send : Send) (op : String) (row : Row) :
    List Call × Except String MResult :=
  match op with
  | "CREATE_USER" =>
      let (cs, r) := create_user send row
      (cs, .ok r)
  | "ENROLL_USER" =>
      let raw_role := cellOpt (Row.get row "role")
      let row2 := Row.set row "role" (.vStr (map_role_to_technical_name raw_role))
      enroll_user send row2
  | "CREATE_COURSE" =>
      let (cs, r) := create_course send row
      -- Template step (tasks.py lines 132-159): when creation succeeded and
      -- templatecourse is nonblank, the source calls
      -- moodle_client.import_course_content, a method MoodleClient does not
      -- define; the AttributeError is caught by the inner handler, leaving
      -- the result and the call list unchanged.
      (cs, .ok r)
  | "DELETE_COURSE" =>
      match pyIntOfCell ((Row.get row "delete").getD (.vInt 0)) with
      | none => ([], .error "invalid int() argument for the delete flag")
      | some n =>
        if n = 1 then delete_course send ((Row.get row "shortname").getD (.vStr "N/A"))
        else ([], .ok { success := false, error := some "Flag 'delete' no es 1. Se omitió." })
  | "DELETE_USER" =>
      match pyIntOfCell ((Row.get row "delete").getD (.vInt 0)) with
      | none => ([], .error "invalid int() argument for the delete flag")
      | some n =>
        if n = 1 then delete_user send ((Row.get row "username").getD (.vStr "N/A"))
        else ([], .ok { success := false, error := some "Flag 'delete' no es 1. Se omitió." })
  | "UPDATE_VISIBILITY" =>
      match pyIntOfCell ((Row.get row "visible").getD (.vInt 1)) with
      | none => ([], .error "invalid int() argument for the visible flag")
      | some v => update_course_visibility send ((Row.get row "shortname").getD (.vStr "N/A")) v
  | _ => ([], .ok { success := false, error := some "Operación desconocida" })

/-- Row result together with the remote calls the row issued. -/
structure RowResult where
  result : MResult
  calls : List Call

/-- One iteration of the row loop: the `try` body with its `except` handler,
which converts any exception into the row-level `Error Worker` failure. -/
def process_row (send : Send) (op : String) (row : Row) : RowResult :=
  match process_row_body send op row with
  | (cs, .ok r) => { result := r, calls := cs }
  | (cs, .error e) =>
      { result := { success := false, error := some ("Error Worker: " ++ e) }, calls := cs }

/-- Persisted `ProcessingLog` record of one row (identifier truncated to
255 characters, message to 500). -/
structure ProcessingLog where
  identifier : String
  action : String
  status : String
  message : String
deriving DecidableEq

/-- Audit entry written for a row's result: `SUCCESS` rows record their
data, `ERROR` rows their error text. -/
def make_log (op : String) (row : Row) (r : MResult) : ProcessingLog :=
  { identifier := strTake (row_identifier op row) 255
    action := op
    status := if r.success then "SUCCESS" else "ERROR"
    message := strTake (if r.success then pyShowOptWS r.data else pyShowOptStr r.error) 500 }

/-- In-memory counters and audit entries accumulated by the row loop. -/
structure JobState where
  success_count : Nat
  error_count : Nat
  logs : List ProcessingLog

/-- The row loop: process each row in order, append its audit entry, and
bump exactly one of the two counters. -/
def run_rows (send : Send) (op : String) (rows : List Row) (st : JobState) : JobState :=
  match rows with
  | [] => st
  | row :: rest =>
    let rr := process_row send op row
    let lg := make_log op row rr.result
    let st' : JobState :=
      if rr.result.success then
        { success_count := st.success_count + 1, error_count := st.error_count,
          logs := st.logs ++ [lg] }
      else
        { success_count := st.success_count, error_count := st.error_count + 1,
          logs := st.logs ++ [lg] }
    run_rows send op rest st'

/-- Final persisted state of a batch job. -/
structure JobOutcome where
  status : String
  total_records : Nat
  success_count : Nat
  error_count : Nat
  logs : List ProcessingLog

/-- Embedding of `process_moodle_batch`: `total_records` is fixed from the
handed-off table's row count before the loop, every row is attempted, and
the job record is finalized as `COMPLETED` with the accumulated counters. -/
def process_moodle_batch (send : Send) (forced_operation : String) (rows : List Row) :
    JobOutcome :=
  let total_records := rows.length
  let fin := run_rows send forced_operation rows
    { success_count := 0, error_count := 0, logs := [] }
  { status := "COMPLETED", total_records := total_records,
    success_count := fin.success_count, error_count := fin.error_count, logs := fin.logs }


/-- Send oracle answering every call with a bare success and a null body
(used to instantiate the oracle-parametric theorems on concrete inputs). -/
def sendOk : Send := fun _ _ => { success := true, data := some .null }

/-! ## Helper lemmas -/

/-- Updating one key leaves every other key's lookup unchanged. -/
theorem Row.get_set_ne (r : Row) (k k' : String) (v : CellVal) (h : k ≠ k') :
    Row.get (Row.set r k v) k' = Row.get r k' := by
  induction r with
  | nil => simp [Row.set, Row.get, h]
  | cons p rest ih =>
      obtain ⟨k2, v2⟩ := p
      by_cases hk : k2 = k
      · subst hk
        simp [Row.set, Row.get, h]
      · simp [Row.set, Row.get, hk, ih]

/-- A Boolean predicate and its negation count every element exactly once. -/
theorem countP_split (p : α → Bool) (l : List α) :
    l.countP p + l.countP (fun a => !(p a)) = l.length := by
  induction l with
  | nil => simp
  | cons a rest ih =>
      by_cases h : p a
      · simp [List.countP_cons, h]
        try omega
      · simp [List.countP_cons, h]
        try omega

/-- Closed form of the row loop's success counter. -/
theorem run_rows_success_count (send : Send) (op : String) (rows : List Row) (st : JobState) :
    (run_rows send op rows st).success_count =
      st.success_count + rows.countP (fun row => (process_row send op row).result.success) := by
  induction rows generalizing st with
  | nil => simp [run_rows]
  | cons row rest ih =>
      simp only [run_rows]
      by_cases h : (process_row send op row).result.success
      · rw [if_pos h, ih]
        simp [List.countP_cons, h]
        try omega
      · rw [if_neg h, ih]
        simp [List.countP_cons, h]
        try omega

/-- Closed form of the row loop's error counter. -/
theorem run_rows_error_count (send : Send) (op : String) (rows : List Row) (st : JobState) :
    (run_rows send op rows st).error_count =
      st.error_count + rows.countP (fun row => !((process_row send op row).result.success)) := by
  induction rows generalizing st with
  | nil => simp [run_rows]
  | cons row rest ih =>
      simp only [run_rows]
      by_cases h : (process_row send op row).result.success
      · rw [if_pos h, ih]
        simp [List.countP_cons, h]
        try omega
      · rw [if_neg h, ih]
        simp [List.countP_cons, h]
        try omega

/-- Closed form of the row loop's audit trail: one entry per row, appended
in the table's order. -/
theorem run_rows_logs (send : Send) (op : String) (rows : List Row) (st : JobState) :
    (run_rows send op rows st).logs =
      st.logs ++ rows.map (fun row => make_log op row (process_row send op row).result) := by
  induction rows generalizing st with
  | nil => simp [run_rows]
  | cons row rest ih =>
      simp only [run_rows]
      by_cases h : (process_row send op row).result.success
      · rw [if_pos h, ih]
        simp
      · rw [if_neg h, ih]
        simp

/-! ## C1 -/

/-- C1 counterexample: on the row `{nombre_cat: "APARTADO", cod_programa:
"4", cod_curso: "101", semestre: "1", grupo: "A"}` the transformation
engine derives shortname `"URA04101_s1A"`, not the claimed
`"URA04101_s1G-A"`: the source formula (data_processor.py lines 90-96) has
no `"G-"` literal between semester and group. -/
theorem c1_shortname_counterexample :
    (construct_moodle_fields ⟨"APARTADO", "4", "101", "1", "A", "Calculo I"⟩).shortname
        = "URA04101_s1A" ∧
    "URA04101_s1A" ≠ "URA04101_s1G-A" := by
  constructor
  · rfl
  · decide

/-- C1 amended: the derived shortname is `category_prefix + program_code +
course_code + "_s" + semester + group` (all components trimmed, no `"G-"`
literal); on the example row the derived fields are shortname
`"URA04101_s1A"`, fullname `"Calculo I - Grupo A"` and category idnumber
`"URA_04_s1"`. -/
theorem c1_shortname_amended :
    (∀ r : AcademicRow,
       (construct_moodle_fields r).shortname =
         get_cat_pref r.nombre_cat ++ format_program_code r.cod_programa ++
         pyStrip r.cod_curso ++ "_s" ++ pyStrip r.semestre ++ pyStrip r.grupo) ∧
    construct_moodle_fields ⟨"APARTADO", "4", "101", "1", "A", "Calculo I"⟩ =
      { shortname := "URA04101_s1A", fullname := "Calculo I - Grupo A",
        category_idnumber := "URA_04_s1", format := "onetopic",
        templatecourse := "PORTAFOLIO04_101s1" } := by
  exact ⟨fun r => rfl, by decide⟩

/-! ## C4 -/

/-- C4 counterexample: two course rows whose program, course and semester
fields are blank or unparseable derive two different template references
(`"PORTAFOLIO00_s"` and `"PORTAFOLIOabc_s"`), so the engine does not fall
back to any fixed fallback template name: the source formula
(data_processor.py lines 119-124) is applied unconditionally. -/
theorem c4_template_counterexample :
    (construct_moodle_fields ⟨"APARTADO", "", "", "", "", ""⟩).templatecourse
        = "PORTAFOLIO00_s" ∧
    (construct_moodle_fields ⟨"X", "abc", "", "", "", ""⟩).templatecourse
        = "PORTAFOLIOabc_s" ∧
    "PORTAFOLIO00_s" ≠ "PORTAFOLIOabc_s" := by
  refine ⟨rfl, rfl, by decide⟩

/-- C4 amended: for every course-creation row the derived template
reference is `"PORTAFOLIO" + program_code + "_" + course_code + "s" +
semester` unconditionally — blank or unparseable fields flow into the
concatenation (the program code falling back to zero-padding the raw
string), with no fixed fallback template name; e.g. the fully valid row
gives `"PORTAFOLIO04_101s1"` and an unparseable program code `"x2"` gives
`"PORTAFOLIOx2_7s3"`. -/
theorem c4_template_amended :
    (∀ r : AcademicRow,
       (construct_moodle_fields r).templatecourse =
         "PORTAFOLIO" ++ format_program_code r.cod_programa ++ "_" ++
         pyStrip r.cod_curso ++ "s" ++ pyStrip r.semestre) ∧
    (construct_moodle_fields ⟨"APARTADO", "4", "101", "1", "A", "Calculo I"⟩).templatecourse
        = "PORTAFOLIO04_101s1" ∧
    (construct_moodle_fields ⟨"X", "x2", "7", "3", "B", "Y"⟩).templatecourse
        = "PORTAFOLIOx2_7s3" := by
  exact ⟨fun r => rfl, by decide, by decide⟩

/-! ## C3 -/

/-- C3: the classifier is a function of the set of normalized column names
only; whenever the required columns of a rule are present, the rule that
fires is a satisfied rule of least priority index in the fixed order
CREATE_COURSE, ENROLL_USER, CREATE_USER, DELETE_COURSE, DELETE_USER,
UPDATE_VISIBILITY; in particular a column set holding both
`{shortname, fullname}` and `{shortname, delete}` classifies as
CREATE_COURSE. -/
theorem c3_classifier_first_match :
    (∀ c1 c2 : List String, (∀ s, s ∈ c1 ↔ s ∈ c2) →
       detect_operation c1 = detect_operation c2) ∧
    (∀ (cols : List String) (op : OperationKind), requiredCols op ⊆ cols →
       ∃ op2, detect_operation cols = some op2 ∧ requiredCols op2 ⊆ cols ∧
         priorityIdx op2 ≤ priorityIdx op) ∧
    detect_operation ["shortname", "fullname", "delete"] = some .CREATE_COURSE := by
  refine ⟨?_, ?_, by decide⟩
  · intro c1 c2 h
    simp only [detect_operation, h]
  · intro cols op hop
    by_cases h1 : "shortname" ∈ cols ∧ "fullname" ∈ cols
    · refine ⟨.CREATE_COURSE, ?_, ?_, Nat.zero_le _⟩
      · simp only [detect_operation]
        rw [if_pos h1]
      · simp [requiredCols, List.cons_subset, h1.1, h1.2]
    · by_cases h2 : "username" ∈ cols ∧ "shortname" ∈ cols
      · refine ⟨.ENROLL_USER, ?_, ?_, ?_⟩
        · simp only [detect_operation]
          rw [if_neg h1, if_pos h2]
        · simp [requiredCols, List.cons_subset, h2.1, h2.2]
        · match op with
          | .CREATE_COURSE =>
              exact absurd (by simpa [requiredCols, List.cons_subset] using hop) h1
          | .ENROLL_USER | .CREATE_USER | .DELETE_COURSE | .DELETE_USER
          | .UPDATE_VISIBILITY => decide
      · by_cases h3 : "username" ∈ cols ∧ "firstname" ∈ cols ∧ "lastname" ∈ cols ∧
            "email" ∈ cols ∧ "password" ∈ cols
        · refine ⟨.CREATE_USER, ?_, ?_, ?_⟩
          · simp only [detect_operation]
            rw [if_neg h1, if_neg h2, if_pos h3]
          · simp [requiredCols, List.cons_subset, h3.1, h3.2.1, h3.2.2.1,
              h3.2.2.2.1, h3.2.2.2.2]
          · match op with
            | .CREATE_COURSE =>
                exact absurd (by simpa [requiredCols, List.cons_subset] using hop) h1
            | .ENROLL_USER =>
                exact absurd (by simpa [requiredCols, List.cons_subset] using hop) h2
            | .CREATE_USER | .DELETE_COURSE | .DELETE_USER | .UPDATE_VISIBILITY =>
                decide
        · by_cases h4 : "shortname" ∈ cols ∧ "delete" ∈ cols
          · refine ⟨.DELETE_COURSE, ?_, ?_, ?_⟩
            · simp only [detect_operation]
              rw [if_neg h1, if_neg h2, if_neg h3, if_pos h4]
            · simp [requiredCols, List.cons_subset, h4.1, h4.2]
            · match op with
              | .CREATE_COURSE =>
                  exact absurd (by simpa [requiredCols, List.cons_subset] using hop) h1
              | .ENROLL_USER =>
                  exact absurd (by simpa [requiredCols, List.cons_subset] using hop) h2
              | .CREATE_USER =>
                  exact absurd (by simpa [requiredCols, List.cons_subset] using hop) h3
              | .DELETE_COURSE | .DELETE_USER | .UPDATE_VISIBILITY => decide
          · by_cases h5 : "username" ∈ cols ∧ "delete" ∈ cols
            · refine ⟨.DELETE_USER, ?_, ?_, ?_⟩
              · simp only [detect_operation]
                rw [if_neg h1, if_neg h2, if_neg h3, if_neg h4, if_pos h5]
              · simp [requiredCols, List.cons_subset, h5.1, h5.2]
              · match op with
                | .CREATE_COURSE =>
                    exact absurd (by simpa [requiredCols, List.cons_subset] using hop) h1
                | .ENROLL_USER =>
                    exact absurd (by simpa [requiredCols, List.cons_subset] using hop) h2
                | .CREATE_USER =>
                    exact absurd (by simpa [requiredCols, List.cons_subset] using hop) h3
                | .DELETE_COURSE =>
                    exact absurd (by simpa [requiredCols, List.cons_subset] using hop) h4
                | .DELETE_USER | .UPDATE_VISIBILITY => decide
            · by_cases h6 : "shortname" ∈ cols ∧ "visible" ∈ cols
              · refine ⟨.UPDATE_VISIBILITY, ?_, ?_, ?_⟩
                · simp only [detect_operation]
                  rw [if_neg h1, if_neg h2, if_neg h3, if_neg h4, if_neg h5, if_pos h6]
                · simp [requiredCols, List.cons_subset, h6.1, h6.2]
                · match op with
                  | .CREATE_COURSE =>
                      exact absurd (by simpa [requiredCols, List.cons_subset] using hop) h1
                  | .ENROLL_USER =>
                      exact absurd (by simpa [requiredCols, List.cons_subset] using hop) h2
                  | .CREATE_USER =>
                      exact absurd (by simpa [requiredCols, List.cons_subset] using hop) h3
                  | .DELETE_COURSE =>
                      exact absurd (by simpa [requiredCols, List.cons_subset] using hop) h4
                  | .DELETE_USER =>
                      exact absurd (by simpa [requiredCols, List.cons_subset] using hop) h5
                  | .UPDATE_VISIBILITY => decide
              · exfalso
                match op with
                | .CREATE_COURSE =>
                    exact h1 (by simpa [requiredCols, List.cons_subset] using hop)
                | .ENROLL_USER =>
                    exact h2 (by simpa [requiredCols, List.cons_subset] using hop)
                | .CREATE_USER =>
                    exact h3 (by simpa [requiredCols, List.cons_subset] using hop)
                | .DELETE_COURSE =>
                    exact h4 (by simpa [requiredCols, List.cons_subset] using hop)
                | .DELETE_USER =>
                    exact h5 (by simpa [requiredCols, List.cons_subset] using hop)
                | .UPDATE_VISIBILITY =>
                    exact h6 (by simpa [requiredCols, List.cons_subset] using hop)

/-- C3 witness: on the concrete column set `{shortname, fullname, delete}`
the priority property instantiates and the classifier answers
CREATE_COURSE. -/
theorem c3_classifier_first_match_witness :
    ∃ op2, detect_operation ["shortname", "fullname", "delete"] = some op2 ∧
      requiredCols op2 ⊆ ["shortname", "fullname", "delete"] ∧
      priorityIdx op2 ≤ priorityIdx .DELETE_COURSE :=
  c3_classifier_first_match.2.1 ["shortname", "fullname", "delete"] .DELETE_COURSE
    (by decide)

/-! ## C2 -/

/-- C2: every batch job completes with `total_records` fixed from the
handed-off table's row count before the loop, and the final persisted
counters satisfy `success_count + error_count = total_records`: each
processed row bumps exactly one of the two counters. -/
theorem c2_counters_complete (send : Send) (op : String) (rows : List Row) :
    (process_moodle_batch send op rows).status = "COMPLETED" ∧
    (process_moodle_batch send op rows).total_records = rows.length ∧
    (process_moodle_batch send op rows).success_count +
        (process_moodle_batch send op rows).error_count =
      (process_moodle_batch send op rows).total_records := by
  refine ⟨rfl, rfl, ?_⟩
  simp only [process_moodle_batch]
  rw [run_rows_success_count, run_rows_error_count]
  simpa using countP_split (fun row => (process_row send op row).result.success) rows

/-! ## C5 -/

/-- C5: the row loop isolates every row-level failure: every job completes
(never transitions to FAILED through a row), each row of the handed-off
table yields exactly one audit entry, the persisted counters equal the
number of SUCCESS resp. ERROR audit entries, and a row whose body raises is
converted into an ERROR result carrying the `Error Worker:` message. -/
theorem c5_row_error_isolation :
    (∀ (send : Send) (op : String) (rows : List Row),
       (process_moodle_batch send op rows).logs.length = rows.length ∧
       (process_moodle_batch send op rows).status = "COMPLETED" ∧
       (process_moodle_batch send op rows).error_count =
         ((process_moodle_batch send op rows).logs.filter
           (fun lg => lg.status == "ERROR")).length ∧
       (process_moodle_batch send op rows).success_count =
         ((process_moodle_batch send op rows).logs.filter
           (fun lg => lg.status == "SUCCESS")).length) ∧
    (∀ (send : Send) (op : String) (row : Row) (cs : List Call) (e : String),
       process_row_body send op row = (cs, .error e) →
       (process_row send op row).result.success = false ∧
       (process_row send op row).result.error = some ("Error Worker: " ++ e) ∧
       (make_log op row (process_row send op row).result).status = "ERROR") := by
  constructor
  · intro send op rows
    refine ⟨?_, rfl, ?_, ?_⟩
    · simp [process_moodle_batch, run_rows_logs]
    · simp only [process_moodle_batch]
      rw [run_rows_logs, run_rows_error_count]
      simp only [List.nil_append, Nat.zero_add]
      rw [← List.countP_eq_length_filter, List.countP_map]
      refine List.countP_congr ?_
      intro row _
      by_cases h : (process_row send op row).result.success <;>
        simp [Function.comp, make_log, h]
    · simp only [process_moodle_batch]
      rw [run_rows_logs, run_rows_success_count]
      simp only [List.nil_append, Nat.zero_add]
      rw [← List.countP_eq_length_filter, List.countP_map]
      refine List.countP_congr ?_
      intro row _
      by_cases h : (process_row send op row).result.success <;>
        simp [Function.comp, make_log, h]
  · intro send op row cs e h
    refine ⟨?_, ?_, ?_⟩ <;> simp [process_row, make_log, h]

/-- C5 witness: a DELETE_COURSE row whose `delete` flag cannot be parsed as
an integer raises inside the body; the loop converts it into the
`Error Worker:` row error. -/
theorem c5_row_error_isolation_witness :
    (process_row sendOk "DELETE_COURSE"
        [("shortname", .vStr "C1"), ("delete", .vStr "abc")]).result.success = false ∧
    (process_row sendOk "DELETE_COURSE"
        [("shortname", .vStr "C1"), ("delete", .vStr "abc")]).result.error =
      some ("Error Worker: " ++ "invalid int() argument for the delete flag") ∧
    (make_log "DELETE_COURSE" [("shortname", .vStr "C1"), ("delete", .vStr "abc")]
        (process_row sendOk "DELETE_COURSE"
          [("shortname", .vStr "C1"), ("delete", .vStr "abc")]).result).status = "ERROR" :=
  c5_row_error_isolation.2 sendOk "DELETE_COURSE"
    [("shortname", .vStr "C1"), ("delete", .vStr "abc")] []
    "invalid int() argument for the delete flag" (by rfl)

/-! ## C6 -/

/-- C6: a CREATE_USER row whose password (stringified, defaulting to empty)
has fewer than 8 characters fails locally inside `create_user` with the
insufficient-password message and an empty remote-call list, and a
one-row job over it persists zero successes, one error, and that message
as the row's audit text. -/
theorem c6_weak_password_local (send : Send) (row : Row)
    (h : strLen (pyStr ((Row.get row "password").getD (.vStr ""))) < 8) :
    create_user send row =
      ([], { success := false,
             error := some "Contraseña insegura: Mínimo 8 caracteres requeridos." }) ∧
    (process_row send "CREATE_USER" row).calls = [] ∧
    (process_moodle_batch send "CREATE_USER" [row]).success_count = 0 ∧
    (process_moodle_batch send "CREATE_USER" [row]).error_count = 1 ∧
    (process_moodle_batch send "CREATE_USER" [row]).logs.map (fun lg => lg.message) =
      ["Contraseña insegura: Mínimo 8 caracteres requeridos."] := by
  have hcu : create_user send row =
      ([], { success := false,
             error := some "Contraseña insegura: Mínimo 8 caracteres requeridos." }) := by
    simp only [create_user]
    rw [if_pos h]
  refine ⟨hcu, ?_, ?_, ?_, ?_⟩
  · simp [process_row, process_row_body, hcu]
  · simp [process_moodle_batch, run_rows, process_row, process_row_body, hcu]
  · simp [process_moodle_batch, run_rows, process_row, process_row_body, hcu]
  · simp [process_moodle_batch, run_rows, process_row, process_row_body, hcu, make_log,
      pyShowOptStr]
    decide

/-- C6 witness: the concrete row with password `"123456"` (length 6) is
rejected locally with no remote call, zero successes and one error. -/
theorem c6_weak_password_local_witness :
    create_user sendOk
        [("username", .vStr "jdoe"), ("firstname", .vStr "J"), ("lastname", .vStr "D"),
         ("email", .vStr "j@x.co"), ("password", .vStr "123456")] =
      ([], { success := false,
             error := some "Contraseña insegura: Mínimo 8 caracteres requeridos." }) ∧
    (process_moodle_batch sendOk "CREATE_USER"
        [[("username", .vStr "jdoe"), ("firstname", .vStr "J"), ("lastname", .vStr "D"),
          ("email", .vStr "j@x.co"), ("password", .vStr "123456")]]).success_count = 0 ∧
    (process_moodle_batch sendOk "CREATE_USER"
        [[("username", .vStr "jdoe"), ("firstname", .vStr "J"), ("lastname", .vStr "D"),
          ("email", .vStr "j@x.co"), ("password", .vStr "123456")]]).error_count = 1 :=
  have h := c6_weak_password_local sendOk
    [("username", .vStr "jdoe"), ("firstname", .vStr "J"), ("lastname", .vStr "D"),
     ("email", .vStr "j@x.co"), ("password", .vStr "123456")] (by decide)
  ⟨h.1, h.2.2.1, h.2.2.2.1⟩

/-! ## C7 -/

/-- C7: in a DELETE_COURSE or DELETE_USER job, a row whose `delete` flag
parses to an integer other than 1 ends as an ERROR row carrying the
flag-not-set message with no remote call at all, and any row that did
contact the remote system had its flag equal to 1. -/
theorem c7_delete_flag_gate (send : Send) (row : Row) (op : String)
    (hop : op = "DELETE_COURSE" ∨ op = "DELETE_USER") :
    (∀ n : Int, pyIntOfCell ((Row.get row "delete").getD (.vInt 0)) = some n → n ≠ 1 →
       (process_row send op row).result.success = false ∧
       (process_row send op row).result.error = some "Flag 'delete' no es 1. Se omitió." ∧
       (process_row send op row).calls = []) ∧
    ((process_row send op row).calls ≠ [] →
       pyIntOfCell ((Row.get row "delete").getD (.vInt 0)) = some 1) := by
  rcases hop with h | h
  · subst h
    constructor
    · intro n hn hne
      refine ⟨?_, ?_, ?_⟩ <;> simp [process_row, process_row_body, hn, hne]
    · intro hc
      cases hflag : pyIntOfCell ((Row.get row "delete").getD (.vInt 0)) with
      | none => exact absurd (by simp [process_row, process_row_body, hflag]) hc
      | some n =>
          by_cases h1 : n = 1
          · rw [h1]
          · exact absurd (by simp [process_row, process_row_body, hflag, h1]) hc
  · subst h
    constructor
    · intro n hn hne
      refine ⟨?_, ?_, ?_⟩ <;> simp [process_row, process_row_body, hn, hne]
    · intro hc
      cases hflag : pyIntOfCell ((Row.get row "delete").getD (.vInt 0)) with
      | none => exact absurd (by simp [process_row, process_row_body, hflag]) hc
      | some n =>
          by_cases h1 : n = 1
          · rw [h1]
          · exact absurd (by simp [process_row, process_row_body, hflag, h1]) hc

/-- C7 witness: a concrete DELETE_COURSE row with `delete = 0` is skipped
as an ERROR with the flag-not-set message and issues no remote call. -/
theorem c7_delete_flag_gate_witness :
    (process_row sendOk "DELETE_COURSE"
        [("shortname", .vStr "C1"), ("delete", .vInt 0)]).result.success = false ∧
    (process_row sendOk "DELETE_COURSE"
        [("shortname", .vStr "C1"), ("delete", .vInt 0)]).result.error =
      some "Flag 'delete' no es 1. Se omitió." ∧
    (process_row sendOk "DELETE_COURSE"
        [("shortname", .vStr "C1"), ("delete", .vInt 0)]).calls = [] :=
  (c7_delete_flag_gate sendOk [("shortname", .vStr "C1"), ("delete", .vInt 0)]
    "DELETE_COURSE" (Or.inl rfl)).1 0 (by decide) (by decide)

/-! ## C8 -/

/-- C8: the executor's role mapper sends profesor and docente to
editingteacher, estudiante and alumno to student, invitado to guest and
gestor to manager; a missing, blank or unrecognized role falls to the
editingteacher default; and every ENROLL_USER row is executed with its
`role` field replaced by the mapped value before the client is invoked. -/
theorem c8_role_mapping :
    map_role_to_technical_name (.vStr "profesor") = "editingteacher" ∧
    map_role_to_technical_name (.vStr "docente") = "editingteacher" ∧
    map_role_to_technical_name (.vStr "estudiante") = "student" ∧
    map_role_to_technical_name (.vStr "alumno") = "student" ∧
    map_role_to_technical_name (.vStr "invitado") = "guest" ∧
    map_role_to_technical_name (.vStr "gestor") = "manager" ∧
    map_role_to_technical_name .vNone = "editingteacher" ∧
    map_role_to_technical_name (.vStr "   ") = "editingteacher" ∧
    (∀ s : String, assocLookup roleTechMapping (pyStrip (pyLower s)) = none →
       map_role_to_technical_name (.vStr s) = "editingteacher") ∧
    (∀ (send : Send) (row : Row),
       process_row_body send "ENROLL_USER" row =
         enroll_user send (Row.set row "role"
           (.vStr (map_role_to_technical_name (cellOpt (Row.get row "role")))))) := by
  refine ⟨by decide, by decide, by decide, by decide, by decide, by decide, by decide,
    by decide, ?_, fun send row => rfl⟩
  intro s h
  simp only [map_role_to_technical_name, pyStr]
  by_cases hb : CellVal.vStr s = CellVal.vNone ∨ pyStrip s = ""
  · rw [if_pos hb]
  · rw [if_neg hb, h]
    rfl

/-- C8 witness: the unrecognized role `"director"` falls to the
editingteacher default. -/
theorem c8_role_mapping_witness :
    map_role_to_technical_name (.vStr "director") = "editingteacher" :=
  c8_role_mapping.2.2.2.2.2.2.2.2.1 "director" (by decide)

/-! ## C9 -/

/-- C9: a success-status response whose dict body embeds an
application-level exception payload (an `exception` or `debuginfo` key) is
returned by the client as a failure carrying the embedded message (and
error code), never as a success. -/
theorem c9_embedded_exception_failure (fs : WSFields)
    (h : ((lookupWS fs "exception").isSome || (lookupWS fs "debuginfo").isSome) = true) :
    (send_request_of (.okResponse (.obj fs))).success = false ∧
    (send_request_of (.okResponse (.obj fs))).error =
      some (pyStrOfWSGet fs "message" "Error desconocido de Moodle") ∧
    (send_request_of (.okResponse (.obj fs))).code =
      some (pyStrOfWSGet fs "errorcode" "") := by
  refine ⟨?_, ?_, ?_⟩ <;> simp [send_request_of, h]

/-- C9 witness: a concrete body with an `exception` key and the message
`"Invalid token"` is returned as a failure with that message. -/
theorem c9_embedded_exception_failure_witness :
    (send_request_of (.okResponse (.obj (.cons "exception" (.s "moodle_exception")
        (.cons "message" (.s "Invalid token") .nil))))).success = false ∧
    (send_request_of (.okResponse (.obj (.cons "exception" (.s "moodle_exception")
        (.cons "message" (.s "Invalid token") .nil))))).error = some "Invalid token" := by
  have h := c9_embedded_exception_failure
    (.cons "exception" (.s "moodle_exception") (.cons "message" (.s "Invalid token") .nil))
    (by rfl)
  exact ⟨h.1, by rw [h.2.1]; rfl⟩

/-! ## C10 -/

/-- C10: course creation resolves its target category only from the numeric
`category_id`/`category` fields (0 when both are absent or empty), is
insensitive to `category_idnumber`, runs the category pre-check on the
resolved id and fails the row when it reports the category missing (for a
derived-fields-only row: id 0) without calling course creation; a present
`category_idnumber` is forwarded only as the `idnumber` parameter of the
create call. -/
theorem c10_category_resolution :
    (∀ row : Row, optTruthy (Row.get row "category_id") = false →
       optTruthy (Row.get row "category") = false →
       resolve_category_id row = some 0) ∧
    (∀ (row : Row) (v : CellVal),
       resolve_category_id (Row.set row "category_idnumber" v) = resolve_category_id row) ∧
    (∀ (send : Send) (row : Row), resolve_category_id row = some 0 →
       (check_category_exists send 0).2 = false →
       create_course send row =
         ((check_category_exists send 0).1,
          { success := false, error := some "La categoría ID 0 no existe." })) ∧
    (∀ send : Send, (check_category_exists send 0).1 =
       [("core_course_get_categories",
         [("criteria[0][key]", .vStr "id"), ("criteria[0][value]", .vInt 0)])]) ∧
    (∀ sh fu ci fo tc : String,
       resolve_category_id
         [("shortname", .vStr sh), ("fullname", .vStr fu), ("category_idnumber", .vStr ci),
          ("format", .vStr fo), ("templatecourse", .vStr tc)] = some 0) ∧
    (∀ (send : Send) (row : Row) (cid : Int) (v : CellVal),
       resolve_category_id row = some cid →
       (check_category_exists send cid).2 = true →
       Row.get row "category_idnumber" = some v →
       ∃ ps : List Param,
         create_course send row =
           ((check_category_exists send cid).1 ++ [("core_course_create_courses", ps)],
            send "core_course_create_courses" ps) ∧
         ("courses[0][idnumber]", v) ∈ ps) := by
  refine ⟨?_, ?_, ?_, fun send => rfl, ?_, ?_⟩
  · intro row h1 h2
    simp [resolve_category_id, h1, h2, pyIntOfCell]
  · intro row v
    simp only [resolve_category_id]
    rw [Row.get_set_ne row "category_idnumber" "category_id" v (by decide),
        Row.get_set_ne row "category_idnumber" "category" v (by decide)]
  · intro send row hres hchk
    rcases hc : check_category_exists send 0 with ⟨cs1, ok⟩
    have hok : ok = false := by
      rw [hc] at hchk
      exact hchk
    subst hok
    simp [create_course, hres, hc]
    decide
  · intro sh fu ci fo tc
    rfl
  · intro send row cid v hres hchk hv
    rcases hc : check_category_exists send cid with ⟨cs1, ok⟩
    have hok : ok = true := by
      rw [hc] at hchk
      exact hchk
    subst hok
    refine ⟨[("courses[0][fullname]", cellOpt (Row.get row "fullname")),
             ("courses[0][shortname]", cellOpt (Row.get row "shortname")),
             ("courses[0][categoryid]", .vInt cid),
             ("courses[0][visible]", .vInt 1),
             ("courses[0][format]", (Row.get row "format").getD (.vStr "topics")),
             ("courses[0][idnumber]", v)], ?_, by simp⟩
    simp [create_course, hres, hc, hv]

/-- C10 witness: the row carrying only the five naming-engine fields
resolves to category id 0, and with an oracle reporting no such category
the row fails the pre-check without a create call. -/
theorem c10_category_resolution_witness :
    resolve_category_id
        [("shortname", .vStr "URA04101_s1A"), ("fullname", .vStr "Calculo I - Grupo A"),
         ("category_idnumber", .vStr "URA_04_s1"), ("format", .vStr "onetopic"),
         ("templatecourse", .vStr "PORTAFOLIO04_101s1")] = some 0 ∧
    create_course sendOk
        [("shortname", .vStr "URA04101_s1A"), ("fullname", .vStr "Calculo I - Grupo A"),
         ("category_idnumber", .vStr "URA_04_s1"), ("format", .vStr "onetopic"),
         ("templatecourse", .vStr "PORTAFOLIO04_101s1")] =
      ([("core_course_get_categories",
         [("criteria[0][key]", .vStr "id"), ("criteria[0][value]", .vInt 0)])],
       { success := false, error := some "La categoría ID 0 no existe." }) := by
  have h1 := c10_category_resolution.2.2.2.2.1 "URA04101_s1A" "Calculo I - Grupo A"
    "URA_04_s1" "onetopic" "PORTAFOLIO04_101s1"
  have h3 := c10_category_resolution.2.2.1 sendOk
    [("shortname", .vStr "URA04101_s1A"), ("fullname", .vStr "Calculo I - Grupo A"),
     ("category_idnumber", .vStr "URA_04_s1"), ("format", .vStr "onetopic"),
     ("templatecourse", .vStr "PORTAFOLIO04_101s1")] h1 (by rfl)
  have h4 := c10_category_resolution.2.2.2.1 sendOk
  exact ⟨h1, by rw [h3, h4]⟩
